import Mathlib

/- Verification development for the SignalRouter trading execution router.

   The definitions below are shallow embeddings of the program's functions:
   - src/trading/kis_broker.py : get_market_session, _get_tr_id (with
     TR_MAPPING), _determine_order_status, _get_cached_or_fetch, get_balance
   - src/trading/trade_executor.py : _calculate_actual_quantity,
     _calculate_transition_type, _execute_reverse_position (with
     place_order / wait_for_fill abstracted as outcome parameters),
     check_position_limit, check_daily_loss_limit
   - src/core/executor.py and src/api/webhook.py : Signal.validate,
     SignalExecutor.execute, the POST /webhook handler

   Modelling conventions: Python float amounts are modelled as ℚ, wallclock
   timestamps (time.time()) as ℕ, a time of day as its seconds-of-day count
   (ℕ, microseconds 0), Python exceptions as Except, a Python None result as
   Option.none, and broker calls as explicit outcome parameters. -/

/-! ## Market-session detection (kis_broker.get_market_session)

Python: weekday() ≥ 5 ⇒ CLOSED; 09:00 ≤ t ≤ 15:30 ⇒ DAY;
t ≥ 18:00 or t ≤ 06:00 ⇒ NIGHT; otherwise CLOSED.
`weekday` follows Python datetime.weekday(): Monday = 0 … Sunday = 6.
`t` is the seconds-of-day of datetime.time (comparison of time objects is
order-isomorphic to comparison of seconds-of-day at whole seconds). -/

def get_market_session (weekday : Nat) (t : Nat) : String :=
  if 5 ≤ weekday then "CLOSED"
  else if 9 * 3600 ≤ t ∧ t ≤ 15 * 3600 + 30 * 60 then "DAY"
  else if 18 * 3600 ≤ t ∨ t ≤ 6 * 3600 then "NIGHT"
  else "CLOSED"

/-- C7: market-session detection is a pure function of wallclock time:
Saturday/Sunday map to CLOSED; on weekdays 09:00:00 ≤ t ≤ 15:30:00 maps to
DAY and 15:30:01 to CLOSED, t ≥ 18:00:00 or t ≤ 06:00:00 maps to NIGHT and
06:00:01 to CLOSED, and every remaining weekday time maps to CLOSED. -/
theorem market_session_spec (weekday t : Nat) :
    (5 ≤ weekday → get_market_session weekday t = "CLOSED") ∧
    (weekday < 5 →
      ((32400 ≤ t ∧ t ≤ 55800) → get_market_session weekday t = "DAY") ∧
      (t = 55801 → get_market_session weekday t = "CLOSED") ∧
      ((64800 ≤ t ∨ t ≤ 21600) → get_market_session weekday t = "NIGHT") ∧
      (t = 21601 → get_market_session weekday t = "CLOSED") ∧
      (¬(32400 ≤ t ∧ t ≤ 55800) → ¬(64800 ≤ t ∨ t ≤ 21600) →
        get_market_session weekday t = "CLOSED")) := by
  unfold get_market_session
  refine ⟨fun h => by simp [h], fun hwd => ⟨?_, ?_, ?_, ?_, ?_⟩⟩ <;>
    intros <;> split_ifs <;> first | rfl | omega

/-- Witness for C7: Wednesday (weekday 2) at 15:30:00 is DAY, and
Saturday (weekday 5) at noon is CLOSED. -/
theorem market_session_spec_witness :
    get_market_session 2 55800 = "DAY" ∧ get_market_session 5 43200 = "CLOSED" :=
  ⟨((market_session_spec 2 55800).2 (by decide)).1 ⟨by decide, by decide⟩,
   (market_session_spec 5 43200).1 (by decide)⟩

/-! ## TR-ID selection (kis_broker.TR_MAPPING and kis_broker._get_tr_id)

TR_MAPPING is the class-level dict keyed by
(account_type, session, is_virtual, action); `tr_lookup` embeds
`TR_MAPPING.get(key)`. -/

def tr_lookup (k : String × String × Bool × String) : Option String :=
  if k = ("FUTURES", "DAY", false, "ORDER") then some "TTTO1101U"
  else if k = ("FUTURES", "NIGHT", false, "ORDER") then some "TTTN1101U"
  else if k = ("FUTURES", "DAY", true, "ORDER") then some "VTTO1101U"
  else if k = ("FUTURES", "NIGHT", true, "ORDER") then some "VTTO1101U"
  else if k = ("FUTURES", "DAY", false, "CANCEL") then some "TTTO1103U"
  else if k = ("FUTURES", "NIGHT", false, "CANCEL") then some "TTTN1103U"
  else if k = ("FUTURES", "DAY", true, "CANCEL") then some "VTTO1103U"
  else if k = ("FUTURES", "NIGHT", true, "CANCEL") then some "VTTO1103U"
  else if k = ("FUTURES", "DAY", false, "BALANCE") then some "CTFO6118R"
  else if k = ("FUTURES", "DAY", true, "BALANCE") then some "VTFO6118R"
  else if k = ("FUTURES", "NIGHT", false, "BALANCE") then some "CTFN6118R"
  else if k = ("FUTURES", "NIGHT", true, "BALANCE") then some "VTFO6118R"
  else if k = ("FUTURES", "DAY", false, "INQUIRY") then some "TTTO5201R"
  else if k = ("FUTURES", "DAY", true, "INQUIRY") then some "VTTO5201R"
  else if k = ("FUTURES", "NIGHT", false, "INQUIRY") then some "STTN5201R"
  else if k = ("FUTURES", "NIGHT", true, "INQUIRY") then some "VTTO5201R"
  else if k = ("FUTURES", "DAY", false, "ORDERABLE") then some "TTTO5105R"
  else if k = ("FUTURES", "DAY", true, "ORDERABLE") then some "VTTO5105R"
  else if k = ("FUTURES", "NIGHT", false, "ORDERABLE") then some "STTN5105R"
  else if k = ("FUTURES", "NIGHT", true, "ORDERABLE") then some "VTTO5105R"
  else none

/-- The session component of the key that `_get_tr_id` actually looks up:
the forced session when one is given, otherwise the detected session with
CLOSED replaced by DAY. -/
def effective_session (detected : String) (force : Option String) : String :=
  let s0 := force.getD detected
  if s0 = "CLOSED" ∧ force = none then "DAY" else s0

/-- kis_broker._get_tr_id. `detected` stands for the result of
get_market_session() at call time; `force` for the force_session argument;
account_type and is_virtual are the instance attributes. Raising
KisApiError is modelled as Except.error. -/
def get_tr_id (account_type : String) (is_virtual : Bool) (detected : String)
    (action : String) (force : Option String) : Except String String :=
  let session := effective_session detected force
  match tr_lookup (account_type, session, is_virtual, action) with
  | some tr => .ok tr
  | none =>
    match tr_lookup (account_type, "DAY", is_virtual, action) with
    | some tr => .ok tr
    | none => .error "No TR ID found"

/-- TR_MAPPING has no entry whose session component is CLOSED. -/
theorem tr_lookup_closed_none (a : String) (v : Bool) (ac : String) :
    tr_lookup (a, "CLOSED", v, ac) = none := by
  simp [tr_lookup, Prod.mk.injEq]

/-- C6: TR-ID selection: detected CLOSED with no forced session behaves as a
DAY request; a hit on the effective key is returned; a miss falls back to
the same tuple with session DAY; a miss there too fails with the
"no TR ID" error; and every selected TR is a table entry whose session is
not CLOSED (it is the effective-session entry or the DAY entry). -/
theorem get_tr_id_spec (a : String) (v : Bool) (d ac : String) (f : Option String) :
    (d = "CLOSED" → f = none →
      get_tr_id a v d ac f = get_tr_id a v "DAY" ac none) ∧
    (∀ tr, tr_lookup (a, effective_session d f, v, ac) = some tr →
      get_tr_id a v d ac f = .ok tr) ∧
    (tr_lookup (a, effective_session d f, v, ac) = none →
      ∀ tr, tr_lookup (a, "DAY", v, ac) = some tr →
      get_tr_id a v d ac f = .ok tr) ∧
    (tr_lookup (a, effective_session d f, v, ac) = none →
      tr_lookup (a, "DAY", v, ac) = none →
      get_tr_id a v d ac f = .error "No TR ID found") ∧
    (∀ tr, get_tr_id a v d ac f = .ok tr →
      ∃ s, s ≠ "CLOSED" ∧ tr_lookup (a, s, v, ac) = some tr ∧
        (s = effective_session d f ∨ s = "DAY")) := by
  refine ⟨?_, ?_, ?_, ?_, ?_⟩
  · intro hd hf
    subst hd hf
    simp [get_tr_id, effective_session]
  · intro tr h
    simp [get_tr_id, h]
  · intro h tr h2
    simp [get_tr_id, h, h2]
  · intro h h2
    simp [get_tr_id, h, h2]
  · intro tr h
    unfold get_tr_id at h
    rcases h1 : tr_lookup (a, effective_session d f, v, ac) with _ | tr1
    · rcases h2 : tr_lookup (a, "DAY", v, ac) with _ | tr2
      · simp [h1, h2] at h
      · simp [h1, h2] at h
        exact ⟨"DAY", by decide, h ▸ h2, Or.inr rfl⟩
    · simp [h1] at h
      by_cases he : effective_session d f = "CLOSED"
      · rw [he, tr_lookup_closed_none] at h1
        exact absurd h1 (by simp)
      · exact ⟨effective_session d f, he, h ▸ h1, Or.inl rfl⟩

/-- Witness for C6: FUTURES real-account ORDER with detected session CLOSED
and no forced session selects the DAY entry TTTO1101U. -/
theorem get_tr_id_spec_witness :
    get_tr_id "FUTURES" false "CLOSED" "ORDER" none = .ok "TTTO1101U" :=
  (get_tr_id_spec "FUTURES" false "CLOSED" "ORDER" none).2.1 "TTTO1101U" (by decide)

/-! ## Order-status canonicalization (kis_broker._determine_order_status)

The record's numeric fields go through int(); a field value of `some n`
means int() succeeded with value n (a missing field defaults to 0, hence to
`some 0`), `none` means int() raised ValueError/TypeError. All four
conversions happen before any branch is taken, so a single unparsable field
yields UNKNOWN regardless of the other fields. -/

structure OrderStatusRecord where
  ord_qty : Option Int
  tot_ccld_qty : Option Int
  rjct_qty : Option Int
  cnc_cfrm_qty : Option Int
  cncl_yn : String

def determine_order_status (d : OrderStatusRecord) : String :=
  match d.ord_qty, d.tot_ccld_qty, d.rjct_qty, d.cnc_cfrm_qty with
  | some oq, some tq, some rq, some cq =>
    if d.cncl_yn = "Y" ∨ 0 < cq then "CANCELLED"
    else if 0 < rq then "REJECTED"
    else if tq = 0 then "PENDING"
    else if oq ≤ tq then "FILLED"
    else "PARTIAL_FILLED"
  | _, _, _, _ => "UNKNOWN"

/-- C2 (counterexample to the claim as stated): the record with
ord_qty 1, tot_ccld_qty 0, rjct_qty 1, cnc_cfrm_qty 0 and cancel flag "N"
satisfies every hypothesis of the claim (non-negative parsed fields,
order_qty ≥ total_filled + rejected, cancel flag not Y, cancel-confirmed 0),
so the claim demands PENDING because total_filled = 0; the code computes
REJECTED. -/
theorem determine_order_status_counterexample :
    determine_order_status ⟨some 1, some 0, some 1, some 0, "N"⟩ = "REJECTED" ∧
    ¬(determine_order_status ⟨some 1, some 0, some 1, some 0, "N"⟩ = "PENDING" ↔
        (0 : Int) = 0) := by
  constructor
  · rfl
  · decide

/-- C2 (amended): status canonicalization: an unparsable numeric field yields
UNKNOWN; with all fields parsed, cancel flag Y or positive cancel-confirmed
quantity yields CANCELLED, otherwise a positive rejected quantity yields
REJECTED; and for a record with non-negative quantities, rejected_qty = 0,
order_qty bounding total_filled + rejected, cancel flag not Y and
cancel-confirmed 0, the status is FILLED iff total_filled ≥ order_qty > 0,
PARTIAL_FILLED iff 0 < total_filled < order_qty, and PENDING iff
total_filled = 0. -/
theorem determine_order_status_spec (d : OrderStatusRecord) :
    ((d.ord_qty = none ∨ d.tot_ccld_qty = none ∨ d.rjct_qty = none ∨
        d.cnc_cfrm_qty = none) → determine_order_status d = "UNKNOWN") ∧
    (∀ oq tq rq cq : Int, d.ord_qty = some oq → d.tot_ccld_qty = some tq →
      d.rjct_qty = some rq → d.cnc_cfrm_qty = some cq →
      ((d.cncl_yn = "Y" ∨ 0 < cq) → determine_order_status d = "CANCELLED") ∧
      (¬(d.cncl_yn = "Y" ∨ 0 < cq) → 0 < rq →
        determine_order_status d = "REJECTED") ∧
      (0 ≤ oq → 0 ≤ tq → rq = 0 → tq + rq ≤ oq → d.cncl_yn ≠ "Y" → cq = 0 →
        ((determine_order_status d = "FILLED" ↔ oq ≤ tq ∧ 0 < oq) ∧
         (determine_order_status d = "PARTIAL_FILLED" ↔ 0 < tq ∧ tq < oq) ∧
         (determine_order_status d = "PENDING" ↔ tq = 0)))) := by
  constructor
  · intro h
    rcases d with ⟨o, t, r, c, y⟩
    rcases h with h | h | h | h <;> simp_all [determine_order_status]
  · intro oq tq rq cq ho ht hr hc
    refine ⟨?_, ?_, ?_⟩
    · intro h
      simp [determine_order_status, ho, ht, hr, hc, h]
    · intro h h2
      simp [determine_order_status, ho, ht, hr, hc, h, h2]
    · intro h0 h1 h2 h3 hy hcq
      subst hcq
      simp only [determine_order_status, ho, ht, hr, hc]
      rw [if_neg (by simp [hy]), if_neg (by omega)]
      constructor
      · constructor
        · intro h
          split_ifs at h <;> simp_all <;> omega
        · intro h
          rw [if_neg (by omega), if_pos (by omega)]
      constructor
      · constructor
        · intro h
          split_ifs at h <;> simp_all <;> omega
        · intro h
          rw [if_neg (by omega), if_neg (by omega)]
      · constructor
        · intro h
          split_ifs at h <;> simp_all
        · intro h
          rw [if_pos h]

/-- Witness for C2: a record ordered 5 and fully filled 5 is FILLED, and a
record whose ord_qty failed to parse is UNKNOWN. -/
theorem determine_order_status_spec_witness :
    determine_order_status ⟨some 5, some 5, some 0, some 0, "N"⟩ = "FILLED" ∧
    determine_order_status ⟨none, some 0, some 0, some 0, "N"⟩ = "UNKNOWN" :=
  ⟨((((determine_order_status_spec ⟨some 5, some 5, some 0, some 0, "N"⟩).2
      5 5 0 0 rfl rfl rfl rfl).2.2 (by decide) (by decide) (by decide)
      (by decide) (by decide) rfl).1).2 ⟨by decide, by decide⟩,
   (determine_order_status_spec ⟨none, some 0, some 0, some 0, "N"⟩).1
      (Or.inl rfl)⟩

/-! ## Quantity resolution (trade_executor._calculate_actual_quantity)

`default_qty` stands for the value of `_get_default_quantity(...)`, which in
the source is always ≥ 1 (every return path is `max(1, ...)` or the literal
1). `current_qty` is the current position quantity for the (already
converted) symbol, `original_quantity` the signal's quantity, `action` the
uppercased action string, `account_type` the account's class. Every refusal
path of the source returns success=False with quantity 0. -/

structure QtyResult where
  success : Bool
  quantity : Int
deriving DecidableEq

def calculate_actual_quantity (account_type : String) (original_quantity : Int)
    (action : String) (current_qty : Int) (default_qty : Int) : QtyResult :=
  let is_full_trade := original_quantity = 0 ∨ original_quantity = -1
  if ¬is_full_trade then
    if 0 < original_quantity then ⟨true, original_quantity⟩ else ⟨false, 0⟩
  else
    let actual : Option Int :=
      if action = "SELL" then
        if 0 < current_qty then some current_qty
        else if current_qty < 0 then none
        else if account_type = "FUTURES" then some default_qty else none
      else if action = "BUY" then
        if current_qty < 0 then some (-current_qty) else some default_qty
      else none
    match actual with
    | none => ⟨false, 0⟩
    | some a => if a ≤ 0 then ⟨false, 0⟩ else ⟨true, a⟩

/-- C3: quantity resolution: a positive signal quantity is used verbatim;
for a full-trade signal (quantity 0 or −1): SELL with a long position
resolves to the current quantity, SELL with a short position is refused,
SELL when flat resolves to the default size on FUTURES and is refused on
any other account class, BUY with a short position resolves to the absolute
current quantity, and BUY when flat or long resolves to the default size. -/
theorem calculate_actual_quantity_spec (account_type : String)
    (original_quantity : Int) (action : String) (current_qty default_qty : Int) :
    (0 < original_quantity →
      calculate_actual_quantity account_type original_quantity action
        current_qty default_qty = ⟨true, original_quantity⟩) ∧
    ((original_quantity = 0 ∨ original_quantity = -1) →
      (action = "SELL" → 0 < current_qty →
        calculate_actual_quantity account_type original_quantity action
          current_qty default_qty = ⟨true, current_qty⟩) ∧
      (action = "SELL" → current_qty < 0 →
        (calculate_actual_quantity account_type original_quantity action
          current_qty default_qty).success = false) ∧
      (action = "SELL" → current_qty = 0 → account_type = "FUTURES" →
        1 ≤ default_qty →
        calculate_actual_quantity account_type original_quantity action
          current_qty default_qty = ⟨true, default_qty⟩) ∧
      (action = "SELL" → current_qty = 0 → account_type ≠ "FUTURES" →
        (calculate_actual_quantity account_type original_quantity action
          current_qty default_qty).success = false) ∧
      (action = "BUY" → current_qty < 0 →
        calculate_actual_quantity account_type original_quantity action
          current_qty default_qty = ⟨true, -current_qty⟩) ∧
      (action = "BUY" → 0 ≤ current_qty → 1 ≤ default_qty →
        calculate_actual_quantity account_type original_quantity action
          current_qty default_qty = ⟨true, default_qty⟩)) := by
  constructor
  · intro h
    rw [calculate_actual_quantity, if_pos (by simp only [not_or]; omega),
      if_pos h]
  · intro hf
    refine ⟨?_, ?_, ?_, ?_, ?_, ?_⟩
    · intro ha hc
      rcases hf with hf | hf <;> subst hf <;> subst ha <;>
        simp [calculate_actual_quantity] <;>
        first | omega | (split_ifs <;> first | rfl | omega | simp_all)
    · intro ha hc
      rcases hf with hf | hf <;> subst hf <;> subst ha <;>
        simp [calculate_actual_quantity] <;>
        first | omega | (split_ifs <;> first | rfl | omega | simp_all)
    · intro ha hc hat hd
      rcases hf with hf | hf <;> subst hf <;> subst ha <;> subst hat <;>
        subst hc <;> simp [calculate_actual_quantity] <;>
        first | omega | (split_ifs <;> first | rfl | omega | simp_all)
    · intro ha hc hat
      rcases hf with hf | hf <;> subst hf <;> subst ha <;> subst hc <;>
        simp [calculate_actual_quantity, hat] <;>
        first | omega | (split_ifs <;> first | rfl | omega | simp_all)
    · intro ha hc
      rcases hf with hf | hf <;> subst hf <;> subst ha <;>
        simp [calculate_actual_quantity] <;>
        first | omega | (split_ifs <;> first | rfl | omega | simp_all)
    · intro ha hc hd
      rcases hf with hf | hf <;> subst hf <;> subst ha <;>
        simp [calculate_actual_quantity, not_lt.mpr hc] <;>
        first | omega | (split_ifs <;> first | rfl | omega | simp_all)

/-- Witness for C3: a full-trade SELL against a long position of 3 resolves
to 3, and an explicit quantity 7 is used verbatim. -/
theorem calculate_actual_quantity_spec_witness :
    calculate_actual_quantity "FUTURES" 0 "SELL" 3 1 = ⟨true, 3⟩ ∧
    calculate_actual_quantity "STOCK" 7 "BUY" 0 1 = ⟨true, 7⟩ :=
  ⟨((calculate_actual_quantity_spec "FUTURES" 0 "SELL" 3 1).2
      (Or.inl rfl)).1 rfl (by decide),
   (calculate_actual_quantity_spec "STOCK" 7 "BUY" 0 1).1 (by decide)⟩

/-! ## Transition inference (trade_executor._calculate_transition_type) -/

inductive TransitionType
  | ENTRY
  | EXIT
  | REVERSE
deriving DecidableEq

def calculate_transition_type (current_qty : Int) (action : String)
    (signal_qty : Int) : TransitionType :=
  if current_qty = 0 then .ENTRY
  else if 0 < current_qty then
    if action = "SELL" then
      if current_qty ≤ signal_qty then
        if current_qty < signal_qty then .REVERSE else .EXIT
      else .EXIT
    else .ENTRY
  else
    if action = "BUY" then
      if -current_qty ≤ signal_qty then
        if -current_qty < signal_qty then .REVERSE else .EXIT
      else .EXIT
    else .ENTRY

/-- C4: transition inference is a pure function of (current quantity,
action, resolved signal quantity) agreeing with the spec table: current 0
gives ENTRY; long with BUY gives ENTRY; long with SELL gives EXIT when the
signal quantity is at most the current quantity and REVERSE when it
exceeds it; short with SELL gives ENTRY; short with BUY gives EXIT when the
signal quantity is at most the absolute current quantity and REVERSE when
it exceeds it. -/
theorem calculate_transition_type_spec (current_qty : Int) (action : String)
    (signal_qty : Int) :
    (current_qty = 0 →
      calculate_transition_type current_qty action signal_qty = .ENTRY) ∧
    (0 < current_qty → action = "BUY" →
      calculate_transition_type current_qty action signal_qty = .ENTRY) ∧
    (0 < current_qty → action = "SELL" → signal_qty ≤ current_qty →
      calculate_transition_type current_qty action signal_qty = .EXIT) ∧
    (0 < current_qty → action = "SELL" → current_qty < signal_qty →
      calculate_transition_type current_qty action signal_qty = .REVERSE) ∧
    (current_qty < 0 → action = "SELL" →
      calculate_transition_type current_qty action signal_qty = .ENTRY) ∧
    (current_qty < 0 → action = "BUY" → signal_qty ≤ -current_qty →
      calculate_transition_type current_qty action signal_qty = .EXIT) ∧
    (current_qty < 0 → action = "BUY" → -current_qty < signal_qty →
      calculate_transition_type current_qty action signal_qty = .REVERSE) := by
  unfold calculate_transition_type
  refine ⟨?_, ?_, ?_, ?_, ?_, ?_, ?_⟩ <;> intros <;> split_ifs <;>
    first | rfl | omega | simp_all

/-- Witness for C4: a long position of 2 with SELL 5 is REVERSE, and a flat
position is ENTRY. -/
theorem calculate_transition_type_spec_witness :
    calculate_transition_type 2 "SELL" 5 = .REVERSE ∧
    calculate_transition_type 0 "BUY" 1 = .ENTRY :=
  ⟨(calculate_transition_type_spec 2 "SELL" 5).2.2.2.1 (by decide) rfl (by decide),
   (calculate_transition_type_spec 0 "BUY" 1).1 rfl⟩

/-! ## Position reversal (trade_executor._execute_reverse_position)

The broker interactions are abstracted as outcome parameters:
`exit_place` / `entry_place` are the outcomes of `place_order` (ok with the
broker order id, or error with the message), `exit_filled` / `entry_filled`
the boolean outcomes of `wait_for_fill`. The event trace records every
`place_order` invocation and every `wait_for_fill` invocation (with its
timeout in seconds: 120 for the exit leg per the explicit argument, 60 for
the entry leg per wait_for_fill's default). The result mirrors the dict
built by `_reverse_position_failed` / the success return: note that on an
unfilled exit leg the source passes the exit order id positionally into the
`entry_order_id` slot, so it surfaces in the result's order_id field. -/

inductive RevEvent
  | placed (symbol action : String) (quantity : Int) (price : Option ℚ)
  | waited (order_id : String) (timeout_seconds : Nat)
deriving DecidableEq

structure RevResult where
  success : Bool
  order_id : Option String
  exit_order_id : Option String
  error : Option String
deriving DecidableEq

/-- Second stage of the reversal: place the entry order and wait for it. -/
def reverse_entry_phase (symbol action : String) (qty : Int) (price : Option ℚ)
    (evs : List RevEvent) (exit_id : Option String)
    (entry_place : Except String String) (entry_filled : Bool) :
    List RevEvent × RevResult :=
  let entry_ev : RevEvent := .placed symbol action qty price
  match entry_place with
  | .error e =>
    (evs ++ [entry_ev],
     ⟨false, none, exit_id, some ("Entry order placement failed: " ++ e)⟩)
  | .ok entry_id =>
    let evs2 := evs ++ [entry_ev, .waited entry_id 60]
    if entry_filled then (evs2, ⟨true, some entry_id, exit_id, none⟩)
    else (evs2, ⟨false, some entry_id, exit_id, some "Entry failed after exit"⟩)

def execute_reverse_position (symbol action : String) (qty : Int)
    (price : Option ℚ) (current_qty : Int) (exit_place : Except String String)
    (exit_filled : Bool) (entry_place : Except String String)
    (entry_filled : Bool) : List RevEvent × RevResult :=
  if current_qty ≠ 0 then
    let exit_action := if 0 < current_qty then "SELL" else "BUY"
    let exit_ev : RevEvent := .placed symbol exit_action |current_qty| none
    match exit_place with
    | .error e =>
      ([exit_ev], ⟨false, none, none,
        some ("Exit order placement failed: " ++ e)⟩)
    | .ok exit_id =>
      if exit_filled then
        reverse_entry_phase symbol action qty price
          [exit_ev, .waited exit_id 120] (some exit_id) entry_place entry_filled
      else
        ([exit_ev, .waited exit_id 120],
         ⟨false, some exit_id, none, some "Exit order failed"⟩)
  else
    reverse_entry_phase symbol action qty price [] none entry_place entry_filled

/-- C5: REVERSE safety: with a non-zero current position the first event is
the market close order for the absolute current quantity in the opposite
side; if its placement fails the execution stops with a failure result and
that close order is the only order ever placed (no entry); if it is placed
but not FILLED within its 120 s wait, the execution stops with a failure
result carrying the close order's id and again no entry order is placed. -/
theorem execute_reverse_position_close_safety (symbol action : String)
    (qty : Int) (price : Option ℚ) (current_qty : Int)
    (exit_place : Except String String) (exit_filled : Bool)
    (entry_place : Except String String) (entry_filled : Bool)
    (hc : current_qty ≠ 0) :
    ((execute_reverse_position symbol action qty price current_qty exit_place
        exit_filled entry_place entry_filled).1.head? =
      some (.placed symbol (if 0 < current_qty then "SELL" else "BUY")
        |current_qty| none)) ∧
    (∀ e, exit_place = .error e →
      execute_reverse_position symbol action qty price current_qty exit_place
        exit_filled entry_place entry_filled =
      ([.placed symbol (if 0 < current_qty then "SELL" else "BUY")
          |current_qty| none],
       ⟨false, none, none, some ("Exit order placement failed: " ++ e)⟩)) ∧
    (∀ exit_id, exit_place = .ok exit_id → exit_filled = false →
      execute_reverse_position symbol action qty price current_qty exit_place
        exit_filled entry_place entry_filled =
      ([.placed symbol (if 0 < current_qty then "SELL" else "BUY")
          |current_qty| none, .waited exit_id 120],
       ⟨false, some exit_id, none, some "Exit order failed"⟩)) := by
  refine ⟨?_, ?_, ?_⟩
  · rcases exit_place with e | exit_id <;>
      simp only [execute_reverse_position, if_pos hc] <;>
      [skip; rcases exit_filled with _ | _] <;>
      simp [reverse_entry_phase] <;>
      rcases entry_place with e2 | entry_id <;> simp <;>
      rcases entry_filled with _ | _ <;> simp
  · intro e he
    subst he
    simp only [execute_reverse_position, if_pos hc]
  · intro exit_id he hf
    subst he hf
    simp [execute_reverse_position, hc]

/-- Witness for C5: a long position of 2 whose close order E1 is placed but
never filled ends as a failure carrying E1, with no entry order placed. -/
theorem execute_reverse_position_close_safety_witness :
    execute_reverse_position "175W09" "SELL" 5 none 2 (.ok "E1") false
      (.ok "E2") true =
    ([.placed "175W09" "SELL" 2 none, .waited "E1" 120],
     ⟨false, some "E1", none, some "Exit order failed"⟩) := by
  have h := execute_reverse_position_close_safety "175W09" "SELL" 5 none 2
    (.ok "E1") false (.ok "E2") true (by decide)
  exact h.2.2 "E1" rfl rfl

/-! ## Risk checks (trade_executor.check_position_limit and
trade_executor.check_daily_loss_limit)

StrategyConfig carries the fields the two checks read. The field embedding
the source's `max_position_ratio` is named `max_position_limit` here. The
`has_config` flag embeds `if self.config:`; `strategies` the value of
`config.get_all_strategies().values()` in iteration order. -/

structure StrategyConfig where
  account_id : String
  is_active : Bool
  max_position_limit : ℚ
  max_daily_loss : ℚ
deriving DecidableEq

structure RiskCheckResult where
  approved : Bool
  reason : String
deriving DecidableEq

def check_position_limit (account_id : String) (portfolio_value amount : ℚ)
    (has_config : Bool) (strategies : List StrategyConfig) : RiskCheckResult :=
  if portfolio_value ≤ 0 then ⟨false, "zero_portfolio_value"⟩
  else
    let position_share := amount / portfolio_value
    let max_share : ℚ :=
      if has_config then
        strategies.foldl
          (fun acc s =>
            if s.account_id = account_id ∧ s.is_active then
              min acc s.max_position_limit
            else acc) 1
      else 1
    if position_share ≤ max_share then ⟨true, "position_limit_ok"⟩
    else ⟨false, "position_limit_exceeded"⟩

/-- C8: the claim says the limit applied to a signal is the signal's own
strategy's max_position_ratio; the code instead takes the minimum across
all active strategies of the account (capped by 1.0). Failing input:
account acc1 carries active strategies A (ratio 1/2, the signal's own) and
B (ratio 1/5); an order of 300,000 against a portfolio of 1,000,000 has
ratio 3/10 ≤ 1/2, so the claim says the check passes, but the code refuses
it with position_limit_exceeded because 3/10 > 1/5. -/
theorem check_position_limit_uses_min_across_strategies :
    check_position_limit "acc1" 1000000 300000 true
      [⟨"acc1", true, 1/2, 5000000⟩, ⟨"acc1", true, 1/5, 5000000⟩] =
      ⟨false, "position_limit_exceeded"⟩ ∧
    ((300000 : ℚ) / 1000000 ≤ 1/2) := by
  constructor
  · simp only [check_position_limit, List.foldl]
    norm_num
  · norm_num

def check_daily_loss_limit (account_id : String) (daily_pnl : Except Unit ℚ)
    (has_config : Bool) (strategies : Except Unit (List StrategyConfig)) :
    RiskCheckResult :=
  match daily_pnl with
  | .error _ => ⟨true, "daily_loss_check_error_allow"⟩
  | .ok pnl =>
    let max_loss : Except Unit ℚ :=
      if has_config then
        match strategies with
        | .error _ => .error ()
        | .ok strats =>
          .ok (strats.foldl
            (fun acc s =>
              if s.account_id = account_id ∧ s.is_active then
                max acc (-s.max_daily_loss)
              else acc) (-5000000))
      else .ok (-5000000)
    match max_loss with
    | .error _ => ⟨true, "daily_loss_check_error_allow"⟩
    | .ok ml =>
      if ml < pnl then ⟨true, "daily_loss_ok"⟩
      else ⟨false, "daily_loss_limit_exceeded"⟩

/-- C10: the daily-loss check fails open: if the daily-P&L lookup or the
strategy-config iteration raises, the check approves the order with reason
daily_loss_check_error_allow; and with a successfully computed daily P&L
the order is blocked exactly when that P&L is at most the computed loss
limit. -/
theorem check_daily_loss_limit_fails_open (account_id : String)
    (daily_pnl : Except Unit ℚ) (has_config : Bool)
    (strategies : Except Unit (List StrategyConfig)) :
    (daily_pnl = .error () →
      check_daily_loss_limit account_id daily_pnl has_config strategies =
        ⟨true, "daily_loss_check_error_allow"⟩) ∧
    (has_config = true → strategies = .error () →
      check_daily_loss_limit account_id daily_pnl has_config strategies =
        ⟨true, "daily_loss_check_error_allow"⟩) ∧
    (∀ pnl strats, daily_pnl = .ok pnl →
      (has_config = true → strategies = .ok strats) →
      ((check_daily_loss_limit account_id daily_pnl has_config
          strategies).approved = false ↔
        pnl ≤ (if has_config then
          strats.foldl
            (fun acc s =>
              if s.account_id = account_id ∧ s.is_active then
                max acc (-s.max_daily_loss)
              else acc) (-5000000)
          else -5000000))) := by
  refine ⟨?_, ?_, ?_⟩
  · intro h
    subst h
    rfl
  · intro hcfg hs
    subst hcfg hs
    rcases daily_pnl with _ | pnl <;> rfl
  · intro pnl strats hp hs
    subst hp
    rcases hcfg : has_config with _ | _
    · simp only [check_daily_loss_limit, hcfg, Bool.false_eq_true, if_false]
      split_ifs with h
      · simp [not_le.mpr h]
      · simp [not_lt.mp h]
    · have hstr := hs hcfg
      subst hstr
      simp only [check_daily_loss_limit, hcfg, if_true]
      split_ifs with h
      · simp [not_le.mpr h]
      · simp [not_lt.mp h]

/-- Witness for C10: a failing P&L lookup approves the order, and a
computed P&L of −6,000,000 with no strategy metadata is blocked by the
default −5,000,000 limit. -/
theorem check_daily_loss_limit_fails_open_witness :
    check_daily_loss_limit "acc1" (.error ()) true (.ok []) =
      ⟨true, "daily_loss_check_error_allow"⟩ ∧
    (check_daily_loss_limit "acc1" (.ok (-6000000)) false
      (.ok [])).approved = false :=
  ⟨(check_daily_loss_limit_fails_open "acc1" (.error ()) true (.ok [])).1 rfl,
   ((check_daily_loss_limit_fails_open "acc1" (.ok (-6000000)) false
      (.ok [])).2.2 (-6000000) [] rfl
      (fun h => absurd h Bool.false_ne_true)).mpr (by norm_num)⟩

/-! ## Read cache and balance read (kis_broker._get_cached_or_fetch and
kis_broker.get_balance)

`_get_cached_or_fetch` returns the cached value while `now < expires` and
otherwise runs the fetch function, whose exception (if any) propagates; on
success it stores `(result, now + ttl)`. `get_balance` dispatches on the
account type, wraps the call in try/except and, on any exception, logs and
falls off the end of the function: the Python caller receives None,
modelled as Option.none. The fetch outcome is `fetch`; `cache` is the
entry currently stored under the key, `now` the time.time() value. -/

structure BalanceData where
  total_balance : ℚ
  available_balance : ℚ
  currency : String
deriving DecidableEq

def zero_balance : BalanceData := ⟨0, 0, "KRW"⟩

def get_cached_or_fetch {α : Type} (cache : Option (α × Nat)) (now ttl : Nat)
    (fetch : Except Unit α) : Except Unit (α × Option (α × Nat)) :=
  match cache with
  | some (data, expires) =>
    if now < expires then .ok (data, cache)
    else
      match fetch with
      | .ok r => .ok (r, some (r, now + ttl))
      | .error e => .error e
  | none =>
    match fetch with
    | .ok r => .ok (r, some (r, now + ttl))
    | .error e => .error e

def get_balance (account_type : String) (cache : Option (BalanceData × Nat))
    (now : Nat) (fetch : Except Unit BalanceData) : Option BalanceData :=
  let body : Except Unit BalanceData :=
    if account_type = "STOCK" ∨ account_type = "FUTURES" ∨
        account_type = "OVERSEAS" then
      (get_cached_or_fetch cache now 30 fetch).map Prod.fst
    else .ok zero_balance
  match body with
  | .ok b => some b
  | .error _ => none

/-- C1: on a FUTURES account whose cache entry expired at time 100, a read
at time 200 whose underlying fetch raises makes get_balance return None
(the except branch logs and falls through): the prior value is not served
as `cached`, no `error_fallback` zero result is produced, and the caller
(Account.get_balance, which subscripts the result) is handed None. -/
theorem get_balance_none_on_fetch_failure :
    get_balance "FUTURES" (some (⟨1000000, 500000, "KRW"⟩, 100)) 200
      (.error ()) = none := by
  rfl

/-! ## Signal executor and webhook surface (models/signal.py,
core/executor.py, api/webhook.py)

`route` abstracts `SignalExecutor._route_signal` (strategy lookup by token
plus account lookup): `none` covers an unknown token or an inactive
strategy. `broker` abstracts the buy/sell call and the fill wait:
`.ok (order_id, filled)` or `.error message` for a raised exception. The
webhook handler body runs inside `try: ... except Exception: raise
HTTPException(500)`; since fastapi's HTTPException is an Exception
subclass, the HTTPException(400) raised for a failed ExecutionResult is
itself caught by that blanket except and re-raised as 500. `PyExc`
distinguishes the two exception species flowing to the except clause. -/

structure Signal where
  symbol : String
  action : String
  quantity : Int
  webhook_token : String
deriving DecidableEq

def Signal.validate (s : Signal) : Bool :=
  s.symbol ≠ "" ∧ (s.action = "BUY" ∨ s.action = "SELL") ∧
    0 < s.quantity ∧ s.webhook_token ≠ ""

structure AccountConfig where
  account_id : String
  is_active : Bool
deriving DecidableEq

structure ExecutionResult where
  success : Bool
  order_id : Option String
  error : Option String
  filled : Bool
deriving DecidableEq

def executor_execute (emergency_stop : Bool) (sig : Signal)
    (route : Option AccountConfig) (broker : Except String (String × Bool)) :
    ExecutionResult :=
  if emergency_stop then ⟨false, none, some "Emergency stop is active", false⟩
  else if ¬sig.validate then ⟨false, none, some "Invalid signal", false⟩
  else
    match route with
    | none => ⟨false, none, some "Account not found", false⟩
    | some acc =>
      if ¬acc.is_active then ⟨false, none, some "Account is inactive", false⟩
      else
        match broker with
        | .error e => ⟨false, none, some e, false⟩
        | .ok (order_id, filled) =>
          if filled then ⟨true, some order_id, none, true⟩
          else ⟨false, some order_id, some "Fill timeout", false⟩

inductive PyExc
  | httpExc (status : Nat)
  | otherExc
deriving DecidableEq

structure HttpResponse where
  status : Nat
  order_id : Option String
  filled : Option Bool
deriving DecidableEq

def receive_signal (parse : Except Unit Signal) (emergency_stop : Bool)
    (route : Signal → Option AccountConfig)
    (broker : Except String (String × Bool)) : HttpResponse :=
  let body : Except PyExc HttpResponse :=
    match parse with
    | .error _ => .error .otherExc
    | .ok sig =>
      let result := executor_execute emergency_stop sig (route sig) broker
      if result.success then .ok ⟨200, result.order_id, some result.filled⟩
      else .error (.httpExc 400)
  match body with
  | .ok r => r
  | .error _ => ⟨500, none, none⟩

/-- C9 (counterexample to the claim as stated): a well-formed signal whose
token matches no account is answered with HTTP 500, not 401: the handler
wraps all failures in the blanket except clause, which re-raises 500. -/
theorem receive_signal_unknown_token_counterexample :
    (receive_signal (.ok ⟨"USDKRW", "BUY", 1, "nope"⟩) false (fun _ => none)
      (.ok ("0000123", true))).status = 500 ∧ (500 : Nat) ≠ 401 := by
  exact ⟨rfl, by decide⟩

/-- C9 (amended): the webhook endpoint returns 200 with the order id and
fill flag exactly when execution succeeds, and 500 for every other
outcome — a parse/validation exception, an unknown token, an inactive
account, a broker failure, and a fill timeout all produce 500, because the
HTTPException(400) raised for a failed execution result is caught by the
handler's own blanket except clause and re-raised as 500. -/
theorem receive_signal_status_spec (parse : Except Unit Signal)
    (emergency_stop : Bool) (route : Signal → Option AccountConfig)
    (broker : Except String (String × Bool)) :
    ((receive_signal parse emergency_stop route broker).status = 200 ∨
      (receive_signal parse emergency_stop route broker).status = 500) ∧
    ((receive_signal parse emergency_stop route broker).status = 200 ↔
      ∃ sig, parse = .ok sig ∧
        (executor_execute emergency_stop sig (route sig) broker).success) ∧
    (∀ sig, parse = .ok sig →
      (executor_execute emergency_stop sig (route sig) broker).success →
      receive_signal parse emergency_stop route broker =
        ⟨200, (executor_execute emergency_stop sig (route sig) broker).order_id,
          some (executor_execute emergency_stop sig (route sig)
            broker).filled⟩) ∧
    (∀ sig, parse = .ok sig → sig.validate → route sig = none →
      (receive_signal parse emergency_stop route broker).status = 500) ∧
    (∀ sig acc, parse = .ok sig → route sig = some acc →
      acc.is_active = false →
      (receive_signal parse emergency_stop route broker).status = 500) := by
  rcases parse with u | sig
  · refine ⟨Or.inr rfl, ?_, ?_, ?_, ?_⟩
    · simp [receive_signal]
    · intro sig h
      exact absurd h (by simp)
    · intro sig h
      exact absurd h (by simp)
    · intro sig acc h
      exact absurd h (by simp)
  · have hbody : receive_signal (.ok sig) emergency_stop route broker =
        (if (executor_execute emergency_stop sig (route sig) broker).success
          then ⟨200,
            (executor_execute emergency_stop sig (route sig) broker).order_id,
            some (executor_execute emergency_stop sig (route sig)
              broker).filled⟩
          else ⟨500, none, none⟩) := by
      by_cases h : (executor_execute emergency_stop sig (route sig)
          broker).success
      · simp [receive_signal, h]
      · simp [receive_signal, h]
    refine ⟨?_, ?_, ?_, ?_, ?_⟩
    · rw [hbody]
      split_ifs <;> simp
    · rw [hbody]
      split_ifs with h <;> simp [h]
    · intro sig2 heq hs
      rw [Except.ok.injEq] at heq
      subst heq
      rw [hbody, if_pos hs]
    · intro sig2 heq hv hr
      rw [Except.ok.injEq] at heq
      subst heq
      rw [hbody]
      have : ¬(executor_execute emergency_stop sig (route sig)
          broker).success := by
        rw [hr]
        simp [executor_execute]
        split_ifs <;> simp
      rw [if_neg this]
    · intro sig2 acc heq hr hact
      rw [Except.ok.injEq] at heq
      subst heq
      rw [hbody]
      have : ¬(executor_execute emergency_stop sig (route sig)
          broker).success := by
        rw [hr]
        simp [executor_execute]
        split_ifs <;> simp_all
      rw [if_neg this]

/-- Witness for C9 (amended): an inactive account yields 500, and a
successful execution yields 200 with the order id. -/
theorem receive_signal_status_spec_witness :
    (receive_signal (.ok ⟨"USDKRW", "BUY", 1, "tok"⟩) false
      (fun _ => some ⟨"acc1", false⟩) (.ok ("0000123", true))).status = 500 ∧
    receive_signal (.ok ⟨"USDKRW", "BUY", 1, "tok"⟩) false
      (fun _ => some ⟨"acc1", true⟩) (.ok ("0000123", true)) =
      ⟨200, some "0000123", some true⟩ :=
  ⟨(receive_signal_status_spec (.ok ⟨"USDKRW", "BUY", 1, "tok"⟩) false
      (fun _ => some ⟨"acc1", false⟩) (.ok ("0000123", true))).2.2.2.2
      ⟨"USDKRW", "BUY", 1, "tok"⟩ ⟨"acc1", false⟩ rfl rfl rfl,
   (receive_signal_status_spec (.ok ⟨"USDKRW", "BUY", 1, "tok"⟩) false
      (fun _ => some ⟨"acc1", true⟩) (.ok ("0000123", true))).2.2.1
      ⟨"USDKRW", "BUY", 1, "tok"⟩ rfl (by decide)⟩
